import Mathlib

/- Verification of the pget installation and update engine against its design
document. The Python sources are shallowly embedded: parsed JSON values (and,
more generally, Python values handled by the manifest helpers) become the
inductive type PyVal, file contents become byte lists (each byte a Nat),
hashlib.sha256 becomes the standard SHA-256 algorithm over Nat words reduced
mod 2^32 with the same incremental update interface, and the filesystem and
network effects of the installer become explicit state records with success
oracles for the fallible operations. -/

namespace Pget

/-- Python values as they reach the manifest helpers after json.loads, or when a
dict is passed in directly. Dict entries keep insertion order, as Python dicts
do. -/
inductive PyVal where
  | pstr (s : String)
  | pint (n : Int)
  | pbool (b : Bool)
  | pnone
  | plist (xs : List PyVal)
  | pdict (kvs : List (PyVal × PyVal))

/-- Python d.get(k) for a string key k: the first entry whose key is the str k,
None otherwise. Non-string keys never compare equal to a str key. -/
def dictGetStr (kvs : List (PyVal × PyVal)) (k : String) : Option PyVal :=
  (kvs.find? (fun p =>
    match p.1 with
    | .pstr s => s == k
    | _ => false)).map (fun p => p.2)

/-- Python truthiness of a PyVal, as used by the `if not x` tests in the
sources. -/
def pyTruthy : PyVal → Bool
  | .pstr s => !s.data.isEmpty
  | .pint n => n != 0
  | .pbool b => b
  | .pnone => false
  | .plist xs => !xs.isEmpty
  | .pdict kvs => !kvs.isEmpty

/-- Lowercase hexadecimal character, the character class of SHA256_RE in
app/security/manifest.py. -/
def isHexLower (c : Char) : Bool :=
  (97 ≤ c.toNat && c.toNat ≤ 102) || (48 ≤ c.toNat && c.toNat ≤ 57)

/-- Semantics of bool(re.match(SHA256_RE, s)) for the source pattern
`[a-f0-9]` repeated 64 times between the anchors. Python re without MULTILINE
lets the dollar anchor match either at the end of the string or just before a
single newline that ends the string, so a 64-hex-char string with one trailing
newline also matches. -/
def sha256REMatch (s : String) : Bool :=
  (s.data.length == 64 && s.data.all isHexLower)
  || (s.data.length == 65 && (s.data.take 64).all isHexLower
        && s.data.getLastD (Char.ofNat 32) == Char.ofNat 10)

/-- Digest condition claimed by the spec: exactly 64 lowercase hex characters.
Written from the words of the spec, for comparison with the source regex. -/
def specDigestExact (d : String) : Bool :=
  d.data.length == 64 && d.data.all isHexLower

/-- Amended digest condition: 64 lowercase hex characters optionally followed
by one trailing newline. -/
def specDigestAmended (d : String) : Bool :=
  specDigestExact d
  || (d.data.length == 65 && (d.data.take 64).all isHexLower
        && d.data.getLastD (Char.ofNat 32) == Char.ofNat 10)

/-- Error classes of app/security/manifest.py. The source raises one class,
ManifestError, with distinct messages; each raise site becomes one
constructor. attributeError stands for the Python AttributeError that a
non-dict assets value would provoke in ensure_asset_checksum. -/
inductive ManifestError where
  | notObject
  | missingAssets
  | assetNameNotString
  | invalidSha
  | assetMissing (name : String)
  | checksumMismatch (name : String)
  | attributeError
deriving DecidableEq

/-- Loop body of _validate_manifest_schema over assets.items(): the first
offending entry raises. -/
def validateAssetEntries : List (PyVal × PyVal) → Except ManifestError Unit
  | [] => Except.ok ()
  | (name, digest) :: rest =>
    match name with
    | .pstr _ =>
      match digest with
      | .pstr d =>
        if sha256REMatch d then validateAssetEntries rest
        else Except.error ManifestError.invalidSha
      | _ => Except.error ManifestError.invalidSha
    | _ => Except.error ManifestError.assetNameNotString

/-- Shallow embedding of _validate_manifest_schema in
app/security/manifest.py. -/
def validate_manifest_schema (manifest : PyVal) : Except ManifestError Unit :=
  match manifest with
  | .pdict kvs =>
    match dictGetStr kvs "assets" with
    | some (.pdict akvs) =>
      if akvs.isEmpty then Except.error ManifestError.missingAssets
      else validateAssetEntries akvs
    | _ => Except.error ManifestError.missingAssets
  | _ => Except.error ManifestError.notObject

/-- One assets entry as the spec describes it: a string name mapped to a
string digest satisfying the given digest condition. -/
def assetEntryOk (digestOk : String → Bool) (p : PyVal × PyVal) : Bool :=
  match p with
  | (.pstr _, .pstr d) => digestOk d
  | _ => false

/-- Acceptance condition in the words of the spec, parameterized by the digest
condition: a mapping containing a non-empty assets mapping whose entries all
satisfy assetEntryOk. -/
def manifestShape (digestOk : String → Bool) (m : PyVal) : Bool :=
  match m with
  | .pdict kvs =>
    match dictGetStr kvs "assets" with
    | some (.pdict akvs) => !akvs.isEmpty && akvs.all (assetEntryOk digestOk)
    | _ => false
  | _ => false

/-- Digest string recorded in a manifest for an asset name, if any. -/
def manifestAssetDigest (manifest : PyVal) (assetName : String) : Option String :=
  match manifest with
  | .pdict kvs =>
    match dictGetStr kvs "assets" with
    | some (.pdict akvs) =>
      match dictGetStr akvs assetName with
      | some (.pstr d) => some d
      | _ => none
    | _ => none
  | _ => none

/-- Digest of 64 zeros followed by a newline: 65 characters, accepted by the
source regex because the dollar anchor matches before a trailing newline. -/
def c4BadDigest : String := String.mk (List.replicate 64 (Char.ofNat 48) ++ [Char.ofNat 10])

/-- Manifest whose single digest is c4BadDigest. -/
def c4BadManifest : PyVal :=
  PyVal.pdict [(PyVal.pstr "assets", PyVal.pdict [(PyVal.pstr "tool", PyVal.pstr c4BadDigest)])]

/-- Schema-valid witness manifest: one asset named tool with a 64-hex-char
digest. -/
def c5Manifest : PyVal :=
  PyVal.pdict [(PyVal.pstr "assets",
    PyVal.pdict [(PyVal.pstr "tool", PyVal.pstr (String.mk (List.replicate 64 (Char.ofNat 97))))])]

/- SHA-256, the hash behind hashlib.sha256 as used by sha256_file. Words are
Nat reduced mod 2^32; the context mirrors the incremental hashlib interface:
an update call appends bytes to the pending buffer and compresses every
complete 64-byte block, hexdigest pads with the total length and finalizes. -/

/-- Reduce a Nat to a 32-bit word. -/
def w32 (x : Nat) : Nat := x % 4294967296

/-- Rotate a 32-bit word right by s bits. -/
def rotr32 (s x : Nat) : Nat := w32 ((x >>> s) ||| (x <<< (32 - s)))

/-- Bitwise complement of a 32-bit word. -/
def not32 (x : Nat) : Nat := x ^^^ 4294967295

/-- SHA-256 choice function. -/
def chFn (e f g : Nat) : Nat := (e &&& f) ^^^ (not32 e &&& g)

/-- SHA-256 majority function. -/
def majFn (a b c : Nat) : Nat := (a &&& b) ^^^ (a &&& c) ^^^ (b &&& c)

/-- SHA-256 big sigma 0. -/
def bigSigma0 (x : Nat) : Nat := rotr32 2 x ^^^ rotr32 13 x ^^^ rotr32 22 x

/-- SHA-256 big sigma 1. -/
def bigSigma1 (x : Nat) : Nat := rotr32 6 x ^^^ rotr32 11 x ^^^ rotr32 25 x

/-- SHA-256 small sigma 0. -/
def smallSigma0 (x : Nat) : Nat := rotr32 7 x ^^^ rotr32 18 x ^^^ (x >>> 3)

/-- SHA-256 small sigma 1. -/
def smallSigma1 (x : Nat) : Nat := rotr32 17 x ^^^ rotr32 19 x ^^^ (x >>> 10)

/-- SHA-256 round constants. -/
def sha256K : List Nat :=
  [1116352408, 1899447441, 3049323471, 3921009573, 961987163,
   1508970993, 2453635748, 2870763221, 3624381080, 310598401,
   607225278, 1426881987, 1925078388, 2162078206, 2614888103,
   3248222580, 3835390401, 4022224774, 264347078, 604807628,
   770255983, 1249150122, 1555081692, 1996064986, 2554220882,
   2821834349, 2952996808, 3210313671, 3336571891, 3584528711,
   113926993, 338241895, 666307205, 773529912, 1294757372,
   1396182291, 1695183700, 1986661051, 2177026350, 2456956037,
   2730485921, 2820302411, 3259730800, 3345764771, 3516065817,
   3600352804, 4094571909, 275423344, 430227734, 506948616,
   659060556, 883997877, 958139571, 1322822218, 1537002063,
   1747873779, 1955562222, 2024104815, 2227730452, 2361852424,
   2428436474, 2756734187, 3204031479, 3329325298]

/-- SHA-256 initial hash words. -/
def sha256H0 : List Nat :=
  [1779033703, 3144134277, 1013904242, 2773480762,
   1359893119, 2600822924, 528734635, 1541459225]

/-- Big-endian packing of bytes into 32-bit words. -/
def bytesToWords : List Nat → List Nat
  | b0 :: b1 :: b2 :: b3 :: rest =>
    (b0 * 16777216 + b1 * 65536 + b2 * 256 + b3) :: bytesToWords rest
  | _ => []

/-- Message schedule extension: appends fuel further words to the 16 packed
words. -/
def extendSchedule : Nat → List Nat → List Nat
  | 0, ws => ws
  | n + 1, ws =>
    let t := ws.length
    extendSchedule n (ws ++ [w32 (smallSigma1 (ws.getD (t - 2) 0) + ws.getD (t - 7) 0
      + smallSigma0 (ws.getD (t - 15) 0) + ws.getD (t - 16) 0)])

/-- One SHA-256 round on the eight working words, given the already combined
value k + w of the round. -/
def sha256Round (st : List Nat) (kw : Nat) : List Nat :=
  match st with
  | [a, b, c, d, e, f, g, h] =>
    let t1 := w32 (h + bigSigma1 e + chFn e f g + kw)
    let t2 := w32 (bigSigma0 a + majFn a b c)
    [w32 (t1 + t2), a, b, c, w32 (d + t1), e, f, g]
  | other => other

/-- SHA-256 compression of one 64-byte block into the hash words. -/
def sha256Compress (hs : List Nat) (block : List Nat) : List Nat :=
  let ws := extendSchedule 48 (bytesToWords block)
  let final := (sha256K.zip ws).foldl (fun st kw => sha256Round st (w32 (kw.1 + kw.2))) hs
  List.zipWith (fun a b => w32 (a + b)) hs final

/-- Compress every complete 64-byte block at the front of the buffer, keeping
the incomplete remainder pending. -/
def absorb (hs : List Nat) (buf : List Nat) : List Nat × List Nat :=
  if 64 ≤ buf.length then absorb (sha256Compress hs (buf.take 64)) (buf.drop 64)
  else (hs, buf)
termination_by buf.length
decreasing_by
  simp only [List.length_drop]
  omega

/-- Incremental hashing context: current hash words, pending partial block,
and total byte count, as hashlib maintains them. -/
structure SHA256Ctx where
  hs : List Nat
  buf : List Nat
  len : Nat

/-- Fresh hashlib.sha256() context. -/
def sha256_init : SHA256Ctx := { hs := sha256H0, buf := [], len := 0 }

/-- h.update(data): append the bytes and compress the complete blocks. -/
def sha256_update (c : SHA256Ctx) (data : List Nat) : SHA256Ctx :=
  { hs := (absorb c.hs (c.buf ++ data)).1
    buf := (absorb c.hs (c.buf ++ data)).2
    len := c.len + data.length }

/-- Big-endian bytes of a value, count bytes wide. -/
def natToBytesBE : Nat → Nat → List Nat
  | 0, _ => []
  | n + 1, v => natToBytesBE n (v / 256) ++ [v % 256]

/-- Final hash words: pad with a 0x80 byte, zeros up to 56 mod 64, and the
64-bit big-endian bit length, then compress the rest. -/
def sha256_finalize (c : SHA256Ctx) : List Nat :=
  let padZeros := (119 - c.len % 64) % 64
  let tail := c.buf ++ 128 :: (List.replicate padZeros 0
      ++ natToBytesBE 8 (c.len * 8 % 18446744073709551616))
  (absorb c.hs tail).1

/-- Hex character of a nibble, lowercase. -/
def hexChar (n : Nat) : Char :=
  if n < 10 then Char.ofNat (48 + n) else Char.ofNat (87 + n)

/-- Eight lowercase hex characters of one 32-bit word, most significant
first. -/
def wordToHex (w : Nat) : List Char :=
  [hexChar (w / 268435456 % 16), hexChar (w / 16777216 % 16),
   hexChar (w / 1048576 % 16), hexChar (w / 65536 % 16),
   hexChar (w / 4096 % 16), hexChar (w / 256 % 16),
   hexChar (w / 16 % 16), hexChar (w % 16)]

/-- h.hexdigest(): lowercase hex of the finalized hash words. -/
def sha256_hexdigest (c : SHA256Ctx) : String :=
  String.mk ((sha256_finalize c).map wordToHex).flatten

/-- The 1 MiB read chunks produced by the f.read loop of sha256_file. -/
def readChunks (l : List Nat) : List (List Nat) :=
  if h : l = [] then [] else l.take 1048576 :: readChunks (l.drop 1048576)
termination_by l.length
decreasing_by
  simp only [List.length_drop]
  have hpos : 0 < l.length := List.length_pos.mpr h
  omega

/-- Shallow embedding of sha256_file in app/security/manifest.py: stream the
file in 1 MiB chunks through an incremental context, then hexdigest. -/
def sha256_file (content : List Nat) : String :=
  sha256_hexdigest (List.foldl sha256_update sha256_init (readChunks content))

/-- Reference single-pass digest: one update call with the whole content. -/
def sha256_whole (content : List Nat) : String :=
  sha256_hexdigest (sha256_update sha256_init content)

/-- Shallow embedding of ensure_asset_checksum in app/security/manifest.py.
The file argument is the byte content of file_path. Python compares the str
actual against the stored expected value with a != test, which is True for any
non-str expected value. -/
def ensure_asset_checksum (manifest : PyVal) (assetName : String) (content : List Nat) :
    Except ManifestError Unit :=
  match manifest with
  | .pdict kvs =>
    match (dictGetStr kvs "assets").getD (PyVal.pdict []) with
    | .pdict akvs =>
      match dictGetStr akvs assetName with
      | none => Except.error (ManifestError.assetMissing assetName)
      | some v =>
        if pyTruthy v = false then Except.error (ManifestError.assetMissing assetName)
        else
          match v with
          | .pstr expected =>
            if sha256_file content ≠ expected then
              Except.error (ManifestError.checksumMismatch assetName)
            else Except.ok ()
          | _ => Except.error (ManifestError.checksumMismatch assetName)
    | _ => Except.error ManifestError.attributeError
  | _ => Except.error ManifestError.attributeError

/- GitHub fetcher (app/core/fetcher.py) and the per-package install flow
(app/commands/install.py). Network and subprocess effects are oracles in an
environment record: which releases exist, which URL downloads succeed, whether
extraction works, whether Bazel is present and builds, and what the
interactive prompt answers. -/

/-- One release asset: its name and its browser_download_url when present. -/
structure Asset where
  name : String
  url : Option String
deriving DecidableEq

/-- One GitHub release: its tag_name and its assets list. -/
structure Release where
  tagName : String
  assets : List Asset
deriving DecidableEq

/-- Remote state seen by GitHubFetcher for one package: the latest release if
any, the release carried by each tag, per-URL download success, and the
outcome of tarball extraction. -/
structure GHState where
  latestRelease : Option Release
  releaseByTag : String → Option Release
  downloadOk : String → Bool
  tarExtractOk : Bool
  extractedDirs : List String

/-- Modelled from the spec: app/core/config.py is not under src; the spec
fixes a single source organization queried over the GitHub API. Only the
shape of the URL strings depends on these values. -/
def GITHUB_API : String := "https://api.github.com"

/-- Modelled from the spec: the fixed source-control organization. -/
def PYNOSAUR_ORG : String := "pynosaur"

/-- Tag normalization of get_release_by_tag and download_source: prefix v when
absent. The Python test is startswith with the single character v, that is,
whether the first character is v (character code 118). -/
def normalizeTag (tag : String) : String :=
  if tag.data.headD (Char.ofNat 32) = Char.ofNat 118 then tag else "v" ++ tag

/-- Tarball download URL for a ref, as built by download_source. -/
def tarballUrl (appName tag : String) : String :=
  GITHUB_API ++ "/repos/" ++ PYNOSAUR_ORG ++ "/" ++ appName ++ "/tarball/" ++ tag

/-- Package cache directory under the temp root (get_temp_cache_dir). -/
def tempCacheDir (appName : String) : String := "/tmp/pget/" ++ appName

/-- Cached file path for a download (get_cache_path). -/
def get_cache_path (appName filename : String) : String :=
  tempCacheDir appName ++ "/" ++ filename

/-- Shallow embedding of GitHubFetcher._download_file: the destination path
when the URL downloads, None on a network failure. -/
def download_file (gh : GHState) (url dest : String) : Option String :=
  if gh.downloadOk url then some dest else none

/-- Shallow embedding of GitHubFetcher.get_release_by_tag. -/
def get_release_by_tag (gh : GHState) (tag : String) : Option Release :=
  gh.releaseByTag (normalizeTag tag)

/-- Shallow embedding of GitHubFetcher._download_release_asset: find the asset
by exact name, then download its URL into the cache. -/
def download_release_asset (gh : GHState) (appName : String) (release : Release)
    (assetName : String) : Option String :=
  match release.assets.find? (fun a => a.name == assetName) with
  | none => none
  | some a =>
    match a.url with
    | none => none
    | some u => download_file gh u (get_cache_path appName assetName)

/-- Release selected by download_binary: the tag lookup for an explicit
version, the latest release otherwise. -/
def resolveRelease (gh : GHState) (version : Option String) : Option Release :=
  match version with
  | some v => get_release_by_tag gh v
  | none => gh.latestRelease

/-- Shallow embedding of GitHubFetcher.download_binary: returns the pair of
optional binary cache path and optional resolved version tag. A missing
matching asset yields (none, some tag) rather than an error. -/
def download_binary (gh : GHState) (appName platform : String) (version : Option String) :
    Option String × Option String :=
  match resolveRelease gh version with
  | none => (none, none)
  | some release =>
    let binaryName := appName ++ "-" ++ platform
    match download_release_asset gh appName release binaryName with
    | none => (none, some release.tagName)
    | some p => (some p, some release.tagName)

/-- Shallow embedding of GitHubFetcher.download_source: explicit version
first, then (outside edge mode) the latest release tag, then the branch
ref. -/
def download_source (gh : GHState) (appName ref : String) (edge : Bool)
    (version : Option String) : Option String × Option String :=
  match version with
  | some v =>
    let tag := normalizeTag v
    match download_file gh (tarballUrl appName tag)
        (get_cache_path appName (appName ++ "-" ++ tag ++ ".tar.gz")) with
    | some r => (some r, some tag)
    | none => (none, none)
  | none =>
    let viaRelease : Option (String × String) :=
      if edge then none
      else
        match gh.latestRelease with
        | some release =>
          match download_file gh (tarballUrl appName release.tagName)
              (get_cache_path appName (appName ++ "-" ++ release.tagName ++ ".tar.gz")) with
          | some r => some (r, release.tagName)
          | none => none
        | none => none
    match viaRelease with
    | some rt => (some rt.1, some rt.2)
    | none =>
      match download_file gh (tarballUrl appName ref)
          (get_cache_path appName (appName ++ "-" ++ ref ++ ".tar.gz")) with
      | some r => (some r, some ref)
      | none => (none, none)

/-- Shallow embedding of GitHubFetcher.download_app_directory: download the
source tarball, extract it, and return the first extracted directory with the
resolved version tag. -/
def download_app_directory (gh : GHState) (appName ref : String) (edge : Bool)
    (version : Option String) : Option (String × String) :=
  match download_source gh appName ref edge version with
  | (some _, some versionTag) =>
    if gh.tarExtractOk then
      match gh.extractedDirs with
      | [] => none
      | d :: _ => some (d, versionTag)
    else none
  | _ => none

/-- Copy success oracle for Installer._try_copy at the two destinations. -/
structure CopyEnv where
  sysCopyOk : Bool
  userCopyOk : Bool
deriving DecidableEq

/-- Observable outcome of Installer.install_binary: the returned flag, whether
save_package_info ran, and where the binary actually landed. -/
structure BinInstallResult where
  success : Bool
  metadataSaved : Bool
  systemBinaryPlaced : Bool
  userBinaryPlaced : Bool
deriving DecidableEq

/-- Shallow embedding of Installer.install_binary on a POSIX host. The source
keeps the system destination when _try_copy succeeds there, otherwise falls
back to the user destination, whose _try_copy result it discards; it then
saves metadata and returns True unconditionally. -/
def install_binary (preferSystem : Bool) (env : CopyEnv) : BinInstallResult :=
  if preferSystem then
    if env.sysCopyOk then
      { success := true, metadataSaved := true,
        systemBinaryPlaced := true, userBinaryPlaced := false }
    else
      { success := true, metadataSaved := true,
        systemBinaryPlaced := false, userBinaryPlaced := env.userCopyOk }
  else
    { success := true, metadataSaved := true,
      systemBinaryPlaced := false, userBinaryPlaced := env.userCopyOk }

/-- Host and state environment for one install.run iteration on a package
that is not pget and not an ignored repo. -/
structure InstallEnv where
  gh : GHState
  installed : Bool
  currentVersion : String
  repoExists : Bool
  hasProgramMarker : Bool
  platform : String
  bazelPresent : Bool
  buildFileExists : Bool
  bazelBuildOk : Bool
  promptAnswer : Option Bool
  sysCopyOk : Bool
  userCopyOk : Bool

/-- Shallow embedding of Installer.install_with_bazel: requires a build
descriptor and Bazel, then a successful build with an artifact; copy results
are discarded and metadata is saved before the True return. -/
def install_with_bazel (env : InstallEnv) : Bool :=
  if !env.buildFileExists then false
  else if !env.bazelPresent then false
  else if !env.bazelBuildOk then false
  else true

/-- Terminal outcome of one install.run iteration. -/
inductive Outcome where
  | alreadyInstalled
  | repoNotFound
  | notInstallable
  | downloadFailed
  | binaryInstalled
  | scriptInstalled
  | bazelInstalled
  | bazelUnavailable
  | bazelFailed
  | cancelled
deriving DecidableEq

/-- Observable result of one install.run iteration: the contribution to
overall_success, the terminal outcome, whether the previously installed
version was uninstalled, and which fetch paths ran. -/
structure InstallResult where
  success : Bool
  outcome : Outcome
  uninstalledOld : Bool
  binaryDownloadTried : Bool
  sourceFallbackTried : Bool
deriving DecidableEq

/-- Flow of install.run after the already-installed gate: repo check, .program
marker check, optional binary download, then the source fallback with script,
prompt, or Bazel installation. -/
def installFresh (env : InstallEnv) (appName : String) (requestedVersion : Option String)
    (scriptMode buildMode edgeMode : Bool) (uninstalledOld : Bool) : InstallResult :=
  if !env.repoExists then
    { success := false, outcome := Outcome.repoNotFound, uninstalledOld := uninstalledOld,
      binaryDownloadTried := false, sourceFallbackTried := false }
  else if !env.hasProgramMarker then
    { success := false, outcome := Outcome.notInstallable, uninstalledOld := uninstalledOld,
      binaryDownloadTried := false, sourceFallbackTried := false }
  else
    let tryBinary := !scriptMode && !buildMode
    let binRes : Option String × Option String :=
      if tryBinary then download_binary env.gh appName env.platform requestedVersion
      else (none, none)
    match binRes.1 with
    | some _ =>
      let copies : CopyEnv := { sysCopyOk := env.sysCopyOk, userCopyOk := env.userCopyOk }
      { success := (install_binary true copies).success,
        outcome := Outcome.binaryInstalled, uninstalledOld := uninstalledOld,
        binaryDownloadTried := tryBinary, sourceFallbackTried := false }
    | none =>
      let useEdge := edgeMode && requestedVersion.isNone
      match download_app_directory env.gh appName "main" useEdge requestedVersion with
      | none =>
        { success := false, outcome := Outcome.downloadFailed, uninstalledOld := uninstalledOld,
          binaryDownloadTried := tryBinary, sourceFallbackTried := true }
      | some _ =>
        if scriptMode then
          { success := true, outcome := Outcome.scriptInstalled, uninstalledOld := uninstalledOld,
            binaryDownloadTried := tryBinary, sourceFallbackTried := true }
        else if !env.bazelPresent then
          if buildMode then
            { success := false, outcome := Outcome.bazelUnavailable,
              uninstalledOld := uninstalledOld,
              binaryDownloadTried := tryBinary, sourceFallbackTried := true }
          else
            match env.promptAnswer with
            | some true =>
              { success := true, outcome := Outcome.scriptInstalled,
                uninstalledOld := uninstalledOld,
                binaryDownloadTried := tryBinary, sourceFallbackTried := true }
            | _ =>
              { success := false, outcome := Outcome.cancelled,
                uninstalledOld := uninstalledOld,
                binaryDownloadTried := tryBinary, sourceFallbackTried := true }
        else
          let ok := install_with_bazel env
          { success := ok,
            outcome := if ok then Outcome.bazelInstalled else Outcome.bazelFailed,
            uninstalledOld := uninstalledOld,
            binaryDownloadTried := tryBinary, sourceFallbackTried := true }

/-- Shallow embedding of one install.run loop iteration for a normal package:
the already-installed gate of install.py, then installFresh. An equal
normalized tag or an absent requested version stops with a warning and a
False contribution; a different explicit version uninstalls first. -/
def installOne (env : InstallEnv) (appName : String) (requestedVersion : Option String)
    (scriptMode buildMode edgeMode : Bool) : InstallResult :=
  if env.installed then
    match requestedVersion with
    | some rv =>
      if normalizeTag rv = normalizeTag env.currentVersion then
        { success := false, outcome := Outcome.alreadyInstalled, uninstalledOld := false,
          binaryDownloadTried := false, sourceFallbackTried := false }
      else
        installFresh env appName (some rv) scriptMode buildMode edgeMode true
    | none =>
      { success := false, outcome := Outcome.alreadyInstalled, uninstalledOld := false,
        binaryDownloadTried := false, sourceFallbackTried := false }
  else
    installFresh env appName requestedVersion scriptMode buildMode edgeMode false

/- Installer.uninstall (app/core/installer.py) over the per-package on-disk
footprint. -/

/-- On-disk footprint of one package: binaries at the two candidate locations,
the helper directory (doc, data, config, cache and the metadata file), the
script directories, and the temp download cache. -/
structure PkgFS where
  systemBinExists : Bool
  userBinExists : Bool
  helperDirExists : Bool
  scriptDirExists : Bool
  legacyScriptDirExists : Bool
  tempCacheExists : Bool
deriving DecidableEq

/-- Shallow embedding of find_existing_binary in app/utils/paths.py: the
system location first, then the user location; some true means the system
path was found, some false the user path. -/
def find_existing_binary (fs : PkgFS) : Option Bool :=
  if fs.systemBinExists then some true
  else if fs.userBinExists then some false
  else none

/-- Shallow embedding of Installer.uninstall: a missing binary returns False
at once; otherwise the found binary, the helper directory, both script
directories and the temp cache are removed. get_temp_cache_dir creates the
cache directory before it is removed, so its net effect is absence. -/
def uninstall (fs : PkgFS) : Bool × PkgFS :=
  match find_existing_binary fs with
  | none => (false, fs)
  | some isSystem =>
    let fs1 := if isSystem then { fs with systemBinExists := false }
               else { fs with userBinExists := false }
    let fs2 := { fs1 with helperDirExists := false }
    let fs3 := { fs2 with scriptDirExists := false, legacyScriptDirExists := false }
    (true, { fs3 with tempCacheExists := false })

/- Self-update binary swap of update_pget_self (app/commands/update.py, the
backup and replace strategy). Faults are modelled at the fallible replacement
steps inside the try block: the chmod of the current binary, the copy to the
backup, the unlink, and the copy of the new binary into place. The recovery
and cleanup operations (restore copy, restore chmod, final chmod, metadata
write, backup removal) are modelled as succeeding, matching the testable
property of the spec about a forced failure during replacement. -/

/-- Fallible steps of the replacement phase, in source order. -/
inductive SwapStep where
  | chmodCurrent
  | copyToBackup
  | unlinkCurrent
  | copyNewToCurrent
deriving DecidableEq, BEq

/-- State of the pget executable during self-update: existence, content
generation and execute bit of the file at the binary path, the sibling backup
file, and the recorded metadata version. -/
structure SelfBinState where
  currentExists : Bool
  currentIsNew : Bool
  currentExec : Bool
  backupExists : Bool
  backupIsNew : Bool
  metadataVersion : String
deriving DecidableEq

/-- Whether the fault schedule makes the given step raise. -/
def failsAt : Option SwapStep → SwapStep → Bool
  | some SwapStep.chmodCurrent, SwapStep.chmodCurrent => true
  | some SwapStep.copyToBackup, SwapStep.copyToBackup => true
  | some SwapStep.unlinkCurrent, SwapStep.unlinkCurrent => true
  | some SwapStep.copyNewToCurrent, SwapStep.copyNewToCurrent => true
  | _, _ => false

/-- Except handler of the swap: when the original file no longer exists but
the backup does, copy the backup back and chmod it executable. -/
def restoreFromBackup (st : SelfBinState) : SelfBinState :=
  if st.backupExists && !st.currentExists then
    { st with currentExists := true, currentIsNew := st.backupIsNew, currentExec := true }
  else st

/-- Shallow embedding of the backup and replace block of update_pget_self:
chmod the current binary writable, copy it to pget.old, unlink it, copy the
downloaded binary into place, chmod, save metadata, delete the backup; any
raise lands in the handler which conditionally restores the backup and
returns False. -/
def update_pget_self_swap (fault : Option SwapStep) (newVersion : String)
    (s0 : SelfBinState) : Bool × SelfBinState :=
  let phaseA : Except SelfBinState SelfBinState :=
    if s0.currentExists then
      if failsAt fault SwapStep.chmodCurrent then Except.error s0
      else
        let s1 := { s0 with currentExec := true }
        if failsAt fault SwapStep.copyToBackup then Except.error s1
        else Except.ok { s1 with backupExists := true, backupIsNew := s1.currentIsNew }
    else Except.ok s0
  match phaseA with
  | Except.error se => (false, restoreFromBackup se)
  | Except.ok sA =>
    let phaseB : Except SelfBinState SelfBinState :=
      if sA.currentExists then
        if failsAt fault SwapStep.unlinkCurrent then Except.error sA
        else Except.ok { sA with currentExists := false }
      else Except.ok sA
    match phaseB with
    | Except.error se => (false, restoreFromBackup se)
    | Except.ok sB =>
      if failsAt fault SwapStep.copyNewToCurrent then (false, restoreFromBackup sB)
      else
        let sC := { sB with currentExists := true, currentIsNew := true, currentExec := true }
        let sD := { sC with metadataVersion := newVersion }
        (true, { sD with backupExists := false })

/- Concrete environments for witnesses and for the failing inputs of the code
bugs. -/

/-- Remote state with no releases and failing downloads. -/
def ghNothing : GHState :=
  { latestRelease := none, releaseByTag := fun _ => none,
    downloadOk := fun _ => false, tarExtractOk := true, extractedDirs := [] }

/-- Release v1.2.0 of package foo with a linux binary asset. -/
def relFoo : Release :=
  { tagName := "v1.2.0",
    assets := [{ name := "foo-linux-x86_64", url := some "https://dl/foo" }] }

/-- Release v1.2.0 of package bar whose only asset targets another
platform. -/
def relBar : Release :=
  { tagName := "v1.2.0",
    assets := [{ name := "bar-windows-arm64", url := some "https://dl/bar" }] }

/-- Remote state where the latest release is relFoo and every download
succeeds. -/
def ghWithRelease : GHState :=
  { latestRelease := some relFoo, releaseByTag := fun _ => none,
    downloadOk := fun _ => true, tarExtractOk := true, extractedDirs := ["src0"] }

/-- Remote state with no releases where every download succeeds. -/
def ghNoRelease : GHState :=
  { latestRelease := none, releaseByTag := fun _ => none,
    downloadOk := fun _ => true, tarExtractOk := true, extractedDirs := ["src0"] }

/-- Remote state where the latest release is relBar and every download
fails. -/
def ghBarNoAsset : GHState :=
  { latestRelease := some relBar, releaseByTag := fun _ => none,
    downloadOk := fun _ => false, tarExtractOk := true, extractedDirs := [] }

/-- Failing input of claim C2: foo 1.0.0 is installed, version 9.9.9 is
requested, no release carries tag v9.9.9 and every download fails. -/
def c2Env : InstallEnv :=
  { gh := ghNothing, installed := true, currentVersion := "1.0.0",
    repoExists := true, hasProgramMarker := true, platform := "linux-x86_64",
    bazelPresent := false, buildFileExists := false, bazelBuildOk := false,
    promptAnswer := none, sysCopyOk := true, userCopyOk := true }

/-- Environment of the claim C7 witness: bar is not installed, its resolved
release has no matching asset, and the source download fails afterwards. -/
def c7Env : InstallEnv :=
  { gh := ghBarNoAsset, installed := false, currentVersion := "unknown",
    repoExists := true, hasProgramMarker := true, platform := "linux-x86_64",
    bazelPresent := false, buildFileExists := false, bazelBuildOk := false,
    promptAnswer := none, sysCopyOk := true, userCopyOk := true }

/-- Environment of the claim C8 witness: foo 1.2.0 already installed. -/
def c8Env : InstallEnv :=
  { gh := ghWithRelease, installed := true, currentVersion := "1.2.0",
    repoExists := true, hasProgramMarker := true, platform := "linux-x86_64",
    bazelPresent := false, buildFileExists := false, bazelBuildOk := false,
    promptAnswer := none, sysCopyOk := true, userCopyOk := true }

/-- Footprint of the claim C9 witness: no binary anywhere, but helper, script
and cache directories present. -/
def c9Fs : PkgFS :=
  { systemBinExists := false, userBinExists := false, helperDirExists := true,
    scriptDirExists := true, legacyScriptDirExists := false, tempCacheExists := true }

/-- Initial executable state of the claim C3 witness: the old binary is in
place and executable, no backup, metadata at 0.5.0. -/
def c3State : SelfBinState :=
  { currentExists := true, currentIsNew := false, currentExec := true,
    backupExists := false, backupIsNew := false, metadataVersion := "0.5.0" }

/- Theorems. Helper lemmas about the incremental hash come first. -/

theorem absorb_small (hs buf : List Nat) (hl : buf.length < 64) :
    absorb hs buf = (hs, buf) := by
  unfold absorb
  rw [if_neg (by omega)]

theorem absorb_step (hs buf : List Nat) (hl : 64 ≤ buf.length) :
    absorb hs buf = absorb (sha256Compress hs (buf.take 64)) (buf.drop 64) := by
  conv_lhs => unfold absorb
  rw [if_pos hl]

theorem absorb_buf_small_aux (n : Nat) : ∀ hs buf : List Nat, buf.length ≤ n →
    ((absorb hs buf).2).length < 64 := by
  induction n with
  | zero =>
    intro hs buf hle
    rw [absorb_small hs buf (by omega)]
    show buf.length < 64
    omega
  | succ n ih =>
    intro hs buf hle
    by_cases h64 : 64 ≤ buf.length
    · rw [absorb_step hs buf h64]
      exact ih _ _ (by simp only [List.length_drop]; omega)
    · rw [absorb_small hs buf (by omega)]
      show buf.length < 64
      omega

theorem absorb_buf_small (hs buf : List Nat) : ((absorb hs buf).2).length < 64 :=
  absorb_buf_small_aux buf.length hs buf (Nat.le_refl _)

theorem absorb_append_aux (n : Nat) : ∀ hs xs ys : List Nat, xs.length ≤ n →
    absorb hs (xs ++ ys) = absorb (absorb hs xs).1 ((absorb hs xs).2 ++ ys) := by
  induction n with
  | zero =>
    intro hs xs ys hle
    have hx : xs = [] := List.eq_nil_of_length_eq_zero (Nat.le_zero.mp hle)
    subst hx
    rw [absorb_small hs [] (by simp)]
  | succ n ih =>
    intro hs xs ys hle
    by_cases h64 : 64 ≤ xs.length
    · have hxys : 64 ≤ (xs ++ ys).length := by
        simp only [List.length_append]; omega
      rw [absorb_step hs (xs ++ ys) hxys, absorb_step hs xs h64,
        List.take_append_of_le_length h64, List.drop_append_of_le_length h64]
      exact ih _ _ _ (by simp only [List.length_drop]; omega)
    · rw [absorb_small hs xs (by omega)]

theorem absorb_append (hs xs ys : List Nat) :
    absorb hs (xs ++ ys) = absorb (absorb hs xs).1 ((absorb hs xs).2 ++ ys) :=
  absorb_append_aux xs.length hs xs ys (Nat.le_refl _)

theorem sha256_update_append (c : SHA256Ctx) (a b : List Nat) :
    sha256_update (sha256_update c a) b = sha256_update c (a ++ b) := by
  simp only [sha256_update, ← List.append_assoc, absorb_append c.hs (c.buf ++ a) b,
    List.length_append]
  rw [Nat.add_assoc]

theorem sha256_update_nil (c : SHA256Ctx) (h : c.buf.length < 64) :
    sha256_update c [] = c := by
  cases c with
  | mk hs buf len =>
    simp only [sha256_update, List.append_nil, List.length_nil, Nat.add_zero]
    rw [absorb_small hs buf h]

theorem foldl_sha256_update_flatten (chs : List (List Nat)) : ∀ c : SHA256Ctx,
    c.buf.length < 64 →
    List.foldl sha256_update c chs = sha256_update c chs.flatten := by
  induction chs with
  | nil =>
    intro c h
    simp only [List.foldl_nil, List.flatten_nil]
    exact (sha256_update_nil c h).symm
  | cons a t ih =>
    intro c h
    have hbuf : (sha256_update c a).buf.length < 64 := by
      simp only [sha256_update]
      exact absorb_buf_small _ _
    simp only [List.foldl_cons, List.flatten_cons]
    rw [ih (sha256_update c a) hbuf, sha256_update_append]

theorem readChunks_flatten_aux (n : Nat) : ∀ l : List Nat, l.length ≤ n →
    (readChunks l).flatten = l := by
  induction n with
  | zero =>
    intro l hle
    have hl : l = [] := List.eq_nil_of_length_eq_zero (Nat.le_zero.mp hle)
    subst hl
    unfold readChunks
    simp
  | succ n ih =>
    intro l hle
    by_cases h : l = []
    · subst h
      unfold readChunks
      simp
    · unfold readChunks
      rw [dif_neg h]
      have hpos : 0 < l.length := List.length_pos.mpr h
      rw [List.flatten_cons, ih (l.drop 1048576) (by simp only [List.length_drop]; omega)]
      exact List.take_append_drop _ l

theorem readChunks_flatten (l : List Nat) : (readChunks l).flatten = l :=
  readChunks_flatten_aux l.length l (Nat.le_refl _)

/-- Claim C10: sha256_file streams the file through the incremental context in
fixed 1 MiB chunks; for every byte content this produces exactly the digest of
hashing the whole content in a single update call. -/
theorem sha256_file_eq_single_pass (content : List Nat) :
    sha256_file content = sha256_whole content := by
  unfold sha256_file sha256_whole
  rw [foldl_sha256_update_flatten (readChunks content) sha256_init (by simp [sha256_init]),
    readChunks_flatten]

theorem validateAssetEntries_ok_iff (l : List (PyVal × PyVal)) :
    validateAssetEntries l = Except.ok () ↔ l.all (assetEntryOk sha256REMatch) = true := by
  induction l with
  | nil => simp [validateAssetEntries]
  | cons p t ih =>
    obtain ⟨name, digest⟩ := p
    cases name with
    | pstr s =>
      cases digest with
      | pstr d =>
        by_cases hm : sha256REMatch d = true
        · simp [validateAssetEntries, assetEntryOk, hm, ih]
        · simp [validateAssetEntries, assetEntryOk, hm]
      | pint n => simp [validateAssetEntries, assetEntryOk]
      | pbool b => simp [validateAssetEntries, assetEntryOk]
      | pnone => simp [validateAssetEntries, assetEntryOk]
      | plist xs => simp [validateAssetEntries, assetEntryOk]
      | pdict kvs => simp [validateAssetEntries, assetEntryOk]
    | pint n => simp [validateAssetEntries, assetEntryOk]
    | pbool b => simp [validateAssetEntries, assetEntryOk]
    | pnone => simp [validateAssetEntries, assetEntryOk]
    | plist xs => simp [validateAssetEntries, assetEntryOk]
    | pdict kvs => simp [validateAssetEntries, assetEntryOk]

theorem sha256REMatch_eq_specDigestAmended : sha256REMatch = specDigestAmended := rfl

/-- Claim C4 counterexample: the digest of 64 zeros plus a trailing newline is
65 characters, so it is not a 64-character lowercase hexadecimal string, yet
_validate_manifest_schema accepts the manifest carrying it, because the
Python dollar anchor also matches just before a trailing newline. -/
theorem validate_manifest_schema_accepts_trailing_newline :
    validate_manifest_schema c4BadManifest = Except.ok ()
    ∧ manifestShape specDigestExact c4BadManifest = false
    ∧ c4BadDigest.data.length = 65 :=
  ⟨rfl, rfl, rfl⟩

/-- Claim C4 (amended): manifest schema validation accepts a manifest exactly
when it is a mapping containing a non-empty assets mapping from string names
to strings of 64 lowercase hexadecimal characters optionally followed by a
single trailing newline; any other shape is rejected with a
ManifestMalformed-class error, independent of signature validity (the schema
check never consults a signature). -/
theorem validate_manifest_schema_characterization (m : PyVal) :
    validate_manifest_schema m = Except.ok () ↔ manifestShape specDigestAmended m = true := by
  cases m with
  | pdict kvs =>
    simp only [validate_manifest_schema, manifestShape]
    cases hA : dictGetStr kvs "assets" with
    | none => simp
    | some v =>
      cases v with
      | pdict akvs =>
        show (if akvs.isEmpty = true then Except.error ManifestError.missingAssets
            else validateAssetEntries akvs) = Except.ok ()
          ↔ (!akvs.isEmpty && akvs.all (assetEntryOk specDigestAmended)) = true
        by_cases he : akvs.isEmpty
        · simp [he]
        · rw [if_neg he, validateAssetEntries_ok_iff, ← sha256REMatch_eq_specDigestAmended]
          simp [he]
      | pstr s => simp
      | pint n => simp
      | pbool b => simp
      | pnone => simp
      | plist xs => simp
  | pstr s => simp [validate_manifest_schema, manifestShape]
  | pint n => simp [validate_manifest_schema, manifestShape]
  | pbool b => simp [validate_manifest_schema, manifestShape]
  | pnone => simp [validate_manifest_schema, manifestShape]
  | plist xs => simp [validate_manifest_schema, manifestShape]

theorem sha256REMatch_data_ne_nil (d : String) (h : sha256REMatch d = true) :
    d.data ≠ [] := by
  intro hnil
  simp [sha256REMatch, hnil] at h

theorem pyTruthy_of_sha256REMatch (d : String) (h : sha256REMatch d = true) :
    pyTruthy (PyVal.pstr d) = true := by
  have hne := sha256REMatch_data_ne_nil d h
  cases hd : d.data.isEmpty with
  | true => exact absurd (List.isEmpty_iff.mp hd) hne
  | false => simp [pyTruthy, hd]

/-- Claim C5: for every schema-valid manifest (the only manifests the engine
ever uses to approve an asset), ensure_asset_checksum succeeds exactly when
the assets mapping lists the SHA-256 digest of the file content for the asset
name, raises the missing-entry error when the name has no entry, and raises
the checksum-mismatch error when the listed digest differs from the content
digest. -/
theorem ensure_asset_checksum_correct (manifest : PyVal) (assetName : String)
    (content : List Nat)
    (hvalid : validate_manifest_schema manifest = Except.ok ()) :
    (ensure_asset_checksum manifest assetName content = Except.ok ()
      ↔ manifestAssetDigest manifest assetName = some (sha256_file content))
    ∧ (manifestAssetDigest manifest assetName = none →
        ensure_asset_checksum manifest assetName content
          = Except.error (ManifestError.assetMissing assetName))
    ∧ (∀ d, manifestAssetDigest manifest assetName = some d → d ≠ sha256_file content →
        ensure_asset_checksum manifest assetName content
          = Except.error (ManifestError.checksumMismatch assetName)) := by
  cases m : manifest with
  | pdict kvs =>
    rw [m] at hvalid
    simp only [validate_manifest_schema] at hvalid
    cases hA : dictGetStr kvs "assets" with
    | none => rw [hA] at hvalid; simp at hvalid
    | some v =>
      rw [hA] at hvalid
      cases v with
      | pdict akvs =>
        replace hvalid : (if akvs.isEmpty = true then Except.error ManifestError.missingAssets
            else validateAssetEntries akvs) = Except.ok () := hvalid
        by_cases he : akvs.isEmpty
        · simp [he] at hvalid
        · rw [if_neg he, validateAssetEntries_ok_iff] at hvalid
          have hent : ∀ p ∈ akvs, assetEntryOk sha256REMatch p = true :=
            List.all_eq_true.mp hvalid
          simp only [ensure_asset_checksum, manifestAssetDigest, hA, Option.getD_some]
          cases hE : dictGetStr akvs assetName with
          | none => simp
          | some v =>
            obtain ⟨p, hfind, hp2⟩ := Option.map_eq_some'.mp hE
            have hmem := List.mem_of_find?_eq_some hfind
            have hok := hent p hmem
            obtain ⟨pn, pv⟩ := p
            cases pn with
            | pstr s =>
              cases pv with
              | pstr d =>
                simp only at hp2
                subst hp2
                simp only [assetEntryOk] at hok
                have htru : pyTruthy (PyVal.pstr d) = true :=
                  pyTruthy_of_sha256REMatch d hok
                by_cases heq : sha256_file content = d
                · subst heq
                  refine ⟨by simp [htru], by simp, ?_⟩
                  intro d2 hd2 hne2
                  simp at hd2
                  exact absurd hd2.symm hne2
                · have heq2 : d ≠ sha256_file content := fun hh => heq hh.symm
                  refine ⟨?_, by simp, ?_⟩
                  · constructor
                    · intro habs
                      simp [htru, heq] at habs
                    · intro habs
                      simp at habs
                      exact absurd habs heq2
                  · intro d2 hd2 hne2
                    simp [htru, heq]
              | pint n => simp [assetEntryOk] at hok
              | pbool b => simp [assetEntryOk] at hok
              | pnone => simp [assetEntryOk] at hok
              | plist xs => simp [assetEntryOk] at hok
              | pdict kvs2 => simp [assetEntryOk] at hok
            | pint n => simp [assetEntryOk] at hok
            | pbool b => simp [assetEntryOk] at hok
            | pnone => simp [assetEntryOk] at hok
            | plist xs => simp [assetEntryOk] at hok
            | pdict kvs2 => simp [assetEntryOk] at hok
      | pstr s => simp at hvalid
      | pint n => simp at hvalid
      | pbool b => simp at hvalid
      | pnone => simp at hvalid
      | plist xs => simp at hvalid
  | pstr s => rw [m] at hvalid; simp [validate_manifest_schema] at hvalid
  | pint n => rw [m] at hvalid; simp [validate_manifest_schema] at hvalid
  | pbool b => rw [m] at hvalid; simp [validate_manifest_schema] at hvalid
  | pnone => rw [m] at hvalid; simp [validate_manifest_schema] at hvalid
  | plist xs => rw [m] at hvalid; simp [validate_manifest_schema] at hvalid

/-- Witness for claim C5: the schema-valid manifest c5Manifest queried for an
unlisted asset name over the empty file content. -/
theorem ensure_asset_checksum_correct_witness :
    (ensure_asset_checksum c5Manifest "other" [] = Except.ok ()
      ↔ manifestAssetDigest c5Manifest "other" = some (sha256_file []))
    ∧ (manifestAssetDigest c5Manifest "other" = none →
        ensure_asset_checksum c5Manifest "other" []
          = Except.error (ManifestError.assetMissing "other"))
    ∧ (∀ d, manifestAssetDigest c5Manifest "other" = some d → d ≠ sha256_file [] →
        ensure_asset_checksum c5Manifest "other" []
          = Except.error (ManifestError.checksumMismatch "other")) :=
  ensure_asset_checksum_correct c5Manifest "other" [] rfl

/-- Claim C1 (code bug evaluation): when the copy to the system destination
and the copy to the user destination both fail, Installer.install_binary
still saves the metadata record and still returns True, although no
executable was placed anywhere; the record-iff-executable invariant is
broken because the user-destination _try_copy result is discarded. -/
theorem install_binary_metadata_without_executable :
    install_binary true { sysCopyOk := false, userCopyOk := false }
      = { success := true, metadataSaved := true,
          systemBinaryPlaced := false, userBinaryPlaced := false } := rfl

/-- Claim C2 (code bug evaluation): with foo 1.0.0 installed, requesting
foo 9.9.9 when no release carries tag v9.9.9 reports failure but has already
uninstalled the previous version, so the prior install is not left
untouched. -/
theorem install_missing_version_destroys_previous_install :
    installOne c2Env "foo" (some "9.9.9") false false false
      = { success := false, outcome := Outcome.downloadFailed, uninstalledOld := true,
          binaryDownloadTried := true, sourceFallbackTried := true } := rfl

/-- Claim C9: when no binary exists at either location, uninstall returns
False and the package footprint is completely unchanged. -/
theorem uninstall_not_installed_is_noop (fs : PkgFS)
    (h : find_existing_binary fs = none) :
    uninstall fs = (false, fs) := by
  simp [uninstall, h]

/-- Witness for claim C9: binaries absent while helper, script and cache
directories exist; uninstall leaves all of them in place. -/
theorem uninstall_not_installed_is_noop_witness :
    uninstall c9Fs = (false, c9Fs) :=
  uninstall_not_installed_is_noop c9Fs rfl

/-- Claim C3: for every fault schedule over the replacement steps, starting
from an executable old binary, the self-update swap either succeeds, leaving
the new executable in place, metadata at the new version and the backup
deleted, or fails, leaving an existing, executable old-generation binary at
the binary path with metadata unchanged, restoring from the backup when the
original had already been unlinked. -/
theorem self_update_swap_preserves_working_binary (fault : Option SwapStep)
    (newVersion : String) (s : SelfBinState)
    (hcur : s.currentExists = true) (hold : s.currentIsNew = false)
    (hexe : s.currentExec = true) :
    ((update_pget_self_swap fault newVersion s).1 = true →
      (update_pget_self_swap fault newVersion s).2
        = { currentExists := true, currentIsNew := true, currentExec := true,
            backupExists := false, backupIsNew := false,
            metadataVersion := newVersion })
    ∧ ((update_pget_self_swap fault newVersion s).1 = false →
      (update_pget_self_swap fault newVersion s).2.currentExists = true
      ∧ (update_pget_self_swap fault newVersion s).2.currentIsNew = false
      ∧ (update_pget_self_swap fault newVersion s).2.currentExec = true
      ∧ (update_pget_self_swap fault newVersion s).2.metadataVersion
          = s.metadataVersion) := by
  rcases fault with _ | step
  · constructor <;> intro hres <;>
      simp_all [update_pget_self_swap, failsAt, restoreFromBackup]
  · cases step <;> constructor <;> intro hres <;>
      simp_all [update_pget_self_swap, failsAt, restoreFromBackup]

/-- Witness for claim C3: a failure of the replacement copy right after the
unlink, starting from version 0.5.0. -/
theorem self_update_swap_witness :
    ((update_pget_self_swap (some SwapStep.copyNewToCurrent) "0.6.0" c3State).1 = true →
      (update_pget_self_swap (some SwapStep.copyNewToCurrent) "0.6.0" c3State).2
        = { currentExists := true, currentIsNew := true, currentExec := true,
            backupExists := false, backupIsNew := false, metadataVersion := "0.6.0" })
    ∧ ((update_pget_self_swap (some SwapStep.copyNewToCurrent) "0.6.0" c3State).1 = false →
      (update_pget_self_swap (some SwapStep.copyNewToCurrent) "0.6.0" c3State).2.currentExists
          = true
      ∧ (update_pget_self_swap (some SwapStep.copyNewToCurrent) "0.6.0" c3State).2.currentIsNew
          = false
      ∧ (update_pget_self_swap (some SwapStep.copyNewToCurrent) "0.6.0" c3State).2.currentExec
          = true
      ∧ (update_pget_self_swap (some SwapStep.copyNewToCurrent) "0.6.0"
          c3State).2.metadataVersion = c3State.metadataVersion) :=
  self_update_swap_preserves_working_binary (some SwapStep.copyNewToCurrent) "0.6.0"
    c3State rfl rfl rfl

/-- Claim C6: with no explicit version and edge mode off, download_source
resolves to the tag of the latest release when one exists and its tarball
downloads, and falls back to the branch ref when no release exists. -/
theorem download_source_default_resolution (gh : GHState) (appName ref : String) :
    (∀ rel : Release, gh.latestRelease = some rel →
        gh.downloadOk (tarballUrl appName rel.tagName) = true →
        download_source gh appName ref false none
          = (some (get_cache_path appName (appName ++ "-" ++ rel.tagName ++ ".tar.gz")),
             some rel.tagName))
    ∧ (gh.latestRelease = none →
        gh.downloadOk (tarballUrl appName ref) = true →
        download_source gh appName ref false none
          = (some (get_cache_path appName (appName ++ "-" ++ ref ++ ".tar.gz")),
             some ref)) := by
  constructor
  · intro rel hrel hdl
    simp [download_source, download_file, hrel, hdl]
  · intro hrel hdl
    simp [download_source, download_file, hrel, hdl]

/-- Witness for claim C6: with a latest release the tag v1.2.0 is used; with
no release the main branch ref is used. -/
theorem download_source_default_resolution_witness :
    download_source ghWithRelease "foo" "main" false none
      = (some (get_cache_path "foo" ("foo" ++ "-" ++ "v1.2.0" ++ ".tar.gz")),
         some "v1.2.0")
    ∧ download_source ghNoRelease "foo" "main" false none
      = (some (get_cache_path "foo" ("foo" ++ "-" ++ "main" ++ ".tar.gz")),
         some "main") :=
  ⟨(download_source_default_resolution ghWithRelease "foo" "main").1 relFoo rfl rfl,
   (download_source_default_resolution ghNoRelease "foo" "main").2 rfl rfl⟩

theorem installFresh_uninstalledOld (env : InstallEnv) (appName : String)
    (rv : Option String) (sm bm em u : Bool) :
    (installFresh env appName rv sm bm em u).uninstalledOld = u := by
  simp only [installFresh]
  repeat' split
  all_goals rfl

/-- Claim C7: when the resolved release exists but carries no asset named
appName-platform, download_binary signals not-found together with the
resolved tag instead of raising, and the install flow proceeds to the source
fallback after having tried the binary path. -/
theorem missing_asset_not_error_falls_back (env : InstallEnv) (appName : String)
    (reqV : Option String) (edgeMode : Bool) (rel : Release)
    (hres : resolveRelease env.gh reqV = some rel)
    (hassets : ∀ a ∈ rel.assets, a.name ≠ appName ++ "-" ++ env.platform)
    (hinst : env.installed = false) (hrepo : env.repoExists = true)
    (hmark : env.hasProgramMarker = true) :
    download_binary env.gh appName env.platform reqV = (none, some rel.tagName)
    ∧ (installOne env appName reqV false false edgeMode).binaryDownloadTried = true
    ∧ (installOne env appName reqV false false edgeMode).sourceFallbackTried = true := by
  have hfind : rel.assets.find? (fun a => a.name == appName ++ "-" ++ env.platform)
      = none := by
    rw [List.find?_eq_none]
    intro a ha
    simp only [beq_iff_eq]
    exact hassets a ha
  have hdb : download_binary env.gh appName env.platform reqV
      = (none, some rel.tagName) := by
    simp [download_binary, hres, download_release_asset, hfind]
  refine ⟨hdb, ?_, ?_⟩ <;>
  · simp only [installOne, hinst, Bool.false_eq_true, if_false, installFresh,
      hrepo, hmark, Bool.not_true, Bool.and_self, hdb]
    rcases hdir : download_app_directory env.gh appName "main"
        (edgeMode && reqV.isNone) reqV with _ | p <;>
      simp [hdir] <;>
      rcases hb : env.bazelPresent <;>
      simp [hb] <;>
      rcases env.promptAnswer with _ | (_ | _) <;>
      simp

/-- Witness for claim C7: package bar whose only release asset targets
another platform. -/
theorem missing_asset_witness :
    download_binary c7Env.gh "bar" c7Env.platform none = (none, some relBar.tagName)
    ∧ (installOne c7Env "bar" none false false false).binaryDownloadTried = true
    ∧ (installOne c7Env "bar" none false false false).sourceFallbackTried = true :=
  missing_asset_not_error_falls_back c7Env "bar" none false relBar rfl (by decide)
    rfl rfl rfl

/-- Claim C8: with the package already installed, requesting the currently
installed version explicitly or requesting no version performs no download
and no reinstall and contributes a failure with the already-installed
outcome; only a different explicit version uninstalls the old version and
proceeds. -/
theorem install_already_installed_policy (env : InstallEnv) (appName : String)
    (scriptMode buildMode edgeMode : Bool) (hinst : env.installed = true) :
    (∀ v, normalizeTag v = normalizeTag env.currentVersion →
        installOne env appName (some v) scriptMode buildMode edgeMode
          = { success := false, outcome := Outcome.alreadyInstalled, uninstalledOld := false,
              binaryDownloadTried := false, sourceFallbackTried := false })
    ∧ (installOne env appName none scriptMode buildMode edgeMode
          = { success := false, outcome := Outcome.alreadyInstalled, uninstalledOld := false,
              binaryDownloadTried := false, sourceFallbackTried := false })
    ∧ (∀ v, normalizeTag v ≠ normalizeTag env.currentVersion →
        (installOne env appName (some v) scriptMode buildMode edgeMode).uninstalledOld
          = true) := by
  refine ⟨?_, ?_, ?_⟩
  · intro v hv
    simp [installOne, hinst, hv]
  · simp [installOne, hinst]
  · intro v hv
    simp [installOne, hinst, hv, installFresh_uninstalledOld]

/-- Witness for claim C8: foo 1.2.0 installed; requesting v1.2.0 or nothing
repeats the already-installed outcome, requesting 2.0.0 uninstalls first. -/
theorem install_already_installed_policy_witness :
    installOne c8Env "foo" (some "v1.2.0") false false false
      = { success := false, outcome := Outcome.alreadyInstalled, uninstalledOld := false,
          binaryDownloadTried := false, sourceFallbackTried := false }
    ∧ installOne c8Env "foo" none false false false
      = { success := false, outcome := Outcome.alreadyInstalled, uninstalledOld := false,
          binaryDownloadTried := false, sourceFallbackTried := false }
    ∧ (installOne c8Env "foo" (some "2.0.0") false false false).uninstalledOld = true := by
  obtain ⟨h1, h2, h3⟩ := install_already_installed_policy c8Env "foo" false false false rfl
  exact ⟨h1 "v1.2.0" rfl, h2, h3 "2.0.0" (by decide)⟩

end Pget
